import Mathlib

/-! Verification of the memilio `ProgressIndicator` module and the
`cleanData` maintenance tool.

The Python source is embedded shallowly:
* terminal output is a list of events (`write s` / `flush`);
* the base `ProgressIndicator` becomes a state record `BaseInd` with pure
  transition functions `start`, `stop`, `show'` and the background-render
  loop abstracted to a live-task counter;
* the `Percentage` wrapper becomes `PercState` with its own
  `start`/`stop`/`setProgress`;
* Python real arithmetic is modelled over `ℚ`; `qmul`/`qsub` are the
  rational product and difference written through `mkRat` so that they
  evaluate inside the kernel (lemmas `qmul_eq_mul`/`qsub_eq_sub` identify
  them with `*` and `-` on `ℚ`);
* Python `int(x)` truncation is `pyTrunc`, string repetition `s * n` is
  `pyRep`, and the format spec for six-wide two-decimal floats is
  `pyFormat62`;
* exceptions (`assert` failures, `OSError` from `os.get_terminal_size`)
  are modelled with `Except PyError`;
* `cleanData.clean_data` is embedded as a pure function from an abstract
  directory listing to the list of deleted files.
-/

/-- A terminal output event: `sys.stdout.write s` or `sys.stdout.flush ()`. -/
inductive OutEvent where
  | write (s : String)
  | flush
deriving DecidableEq

/-- Python string repetition `s * n` for a nonnegative count. -/
def pyRep (s : String) (n : ℕ) : String := String.join (List.replicate n s)

/-- Python string repetition `s * n` for an integer count
(a nonpositive count yields the empty string, as in Python). -/
def pyRepZ (s : String) (n : ℤ) : String := pyRep s n.toNat

/-- Rational product, written via `mkRat` so that it evaluates in the kernel. -/
def qmul (a b : ℚ) : ℚ := mkRat (a.num * b.num) (a.den * b.den)

/-- Rational difference, written via `mkRat` so that it evaluates in the kernel. -/
def qsub (a b : ℚ) : ℚ := mkRat (a.num * b.den - b.num * a.den) (a.den * b.den)

theorem qmul_eq_mul (a b : ℚ) : qmul a b = a * b := by
  rw [qmul, Rat.mul_def, Rat.normalize_eq_mkRat]

theorem qsub_eq_sub (a b : ℚ) : qsub a b = a - b := by
  rw [qsub, Rat.sub_def']

/-- Python `int x` truncation toward zero, on a rational. -/
def pyTrunc (q : ℚ) : ℤ := q.num.sign * (q.num.natAbs / q.den : ℕ)

/-- The `Percentage._bar` helper object: stores the shared progress cell,
the message and the precomputed width `terminal_width - len message - 11`. -/
structure BarRef where
  p : ℚ
  m : String
  w : ℤ

/-- `Percentage._bar.__getitem__`: renders the progress bar string. -/
def BarRef.getItem (b : BarRef) : String :=
  let n := pyTrunc (qmul (b.w : ℚ) b.p)
  b.m ++ "[" ++ pyRepZ "#" n ++ pyRepZ " " (b.w - n) ++ "] "

/-- Round a rational to the nearest integer, ties to even
(the rounding used when Python formats a float with a fixed precision). -/
def roundHalfEven (q : ℚ) : ℤ :=
  let f := ⌊q⌋
  let r := qsub q (f : ℚ)
  if r < mkRat 1 2 then f
  else if mkRat 1 2 < r then f + 1
  else if f % 2 = 0 then f else f + 1

/-- Two-digit zero-padded decimal rendering of a natural number below 100. -/
def pad2 (n : ℕ) : String := (if n < 10 then "0" else "") ++ toString n

/-- Python format spec for a fixed-point value of minimum width six with
two decimals, applied to a rational. -/
def pyFormat62 (q : ℚ) : String :=
  let cents := roundHalfEven (qmul q 100)
  let sign := if cents < 0 then "-" else ""
  let a := cents.natAbs
  let base := sign ++ toString (a / 100) ++ "." ++ pad2 (a % 100)
  pyRep " " (6 - base.length) ++ base

/-- One frame of the `Spinner` generator:
the message followed by the `k`-th symbol of the repeating cycle. -/
def spinFrame (message : String) (k : ℕ) : String :=
  message ++ (match k % 4 with
    | 0 => "|"
    | 1 => "/"
    | 2 => "-"
    | _ => "\\")

/-- The body of one `yield` of the `Dots` generator, at inner counter `n`. -/
def dotsFrame (message dot blank : String) (num_dots n : ℕ) : String :=
  message ++ pyRep dot n ++ pyRep blank (num_dots - n)

/-- The `k`-th string yielded by the `Dots` generator: the infinite
`while` loop flattens so that index `k` falls in inner iteration
`k % num_dots` of the `for` loop, whose counter is `k % num_dots + 1`. -/
def dotsSeq (message dot blank : String) (num_dots : ℕ) (k : ℕ) : String :=
  dotsFrame message dot blank num_dots (k % num_dots + 1)

/-- State of a base `ProgressIndicator`: the animator (as the sequence of
frames it will yield and the position of the next one), the construction
delay, the `_enabled` flag, the number of live background render tasks,
and the terminal output produced so far. -/
structure BaseInd where
  frames : ℕ → String
  pos : ℕ
  delay : ℚ
  enabled : Bool
  liveTasks : ℕ
  out : List OutEvent

/-- `ProgressIndicator.show`: write a space, the next animator frame and a
carriage return, then flush. -/
def BaseInd.show' (i : BaseInd) : BaseInd :=
  { i with pos := i.pos + 1,
           out := i.out ++ [OutEvent.write (" " ++ i.frames i.pos ++ "\r"), OutEvent.flush] }

/-- `ProgressIndicator.start`: when not enabled, set the flag and spawn the
background render task; otherwise do nothing. -/
def BaseInd.start (i : BaseInd) : BaseInd :=
  if i.enabled then i
  else { i with enabled := true, liveTasks := i.liveTasks + 1 }

/-- `ProgressIndicator.stop`: when enabled, clear the flag, join the
background task and write the erase-line escape sequence; otherwise do
nothing. -/
def BaseInd.stop (i : BaseInd) : BaseInd :=
  if i.enabled then
    { i with enabled := false, liveTasks := i.liveTasks - 1,
             out := i.out ++ [OutEvent.write "\x1b[K"] }
  else i

/-- Python exceptions that the embedded constructors can raise. -/
inductive PyError where
  | assertionError
  | osError
deriving DecidableEq

/-- `ProgressIndicator.__init__`: asserts `delay > 0`, then builds the
disabled indicator. `pre` is the output already produced by the preset
classmethod (the width-guard `print`). -/
def indInit (frames : ℕ → String) (delay : ℚ) (pre : List OutEvent) :
    Except PyError BaseInd :=
  if 0 < delay then
    .ok { frames := frames, pos := 0, delay := delay, enabled := false,
          liveTasks := 0, out := pre }
  else .error .assertionError

/-- `ProgressIndicator.Spinner`: queries the terminal width (`term` is the
result of `os.get_terminal_size`, an `OSError` when no terminal is
attached), applies the width guard, then constructs the indicator. -/
def spinnerInit (term : Except PyError ℕ) (delay : ℚ) (message : String) :
    Except PyError BaseInd :=
  match term with
  | .error e => .error e
  | .ok width =>
    if width < message.length + 2 then
      indInit (spinFrame "") delay [OutEvent.write (message ++ "\n")]
    else
      indInit (spinFrame message) delay []

/-- `ProgressIndicator.Dots`: asserts `len dot = len blank` and
`num_dots > 0`, queries the terminal width, applies the width guard, then
constructs the indicator. -/
def dotsInit (term : Except PyError ℕ) (delay : ℚ) (message : String)
    (num_dots : ℤ) (dot blank : String) : Except PyError BaseInd :=
  if dot.length = blank.length then
    if 0 < num_dots then
      match term with
      | .error e => .error e
      | .ok width =>
        if (width : ℤ) < num_dots + message.length + 1 then
          indInit (dotsSeq "" dot blank num_dots.toNat) delay
            [OutEvent.write (message ++ "\n")]
        else
          indInit (dotsSeq message dot blank num_dots.toNat) delay []
    else .error .assertionError
  else .error .assertionError

/-- State of a `ProgressIndicator.Percentage`: the configuration flags, the
(post-guard) message, the terminal width taken at construction, the shared
progress cell, and the wrapped base indicator's `_enabled` flag, live-task
count and terminal output. -/
structure PercState where
  useThread : Bool
  keepOutput : Bool
  useBar : Bool
  message : String
  width : ℤ
  progress : ℚ
  enabled : Bool
  liveTasks : ℕ
  out : List OutEvent

/-- The `message[0]` read performed by the `_perc` generator: the plain
message, or the bar rendered by `_bar.__getitem__` from the current
progress when `use_bar` is set. -/
def PercState.msgPart (s : PercState) : String :=
  if s.useBar then
    BarRef.getItem { p := s.progress, m := s.message, w := s.width - s.message.length - 11 }
  else s.message

/-- The string yielded by the `_perc` generator: the message part followed
by the current progress times 100, formatted six wide with two decimals,
and a percent sign. -/
def PercState.frame (s : PercState) : String :=
  s.msgPart ++ pyFormat62 (qmul 100 s.progress) ++ "%"

/-- `show` called on the wrapped indicator: write a space, the frame and a
carriage return, then flush. -/
def PercState.show' (s : PercState) : PercState :=
  { s with out := s.out ++ [OutEvent.write (" " ++ s.frame ++ "\r"), OutEvent.flush] }

/-- `Percentage.start`: start the wrapped indicator, but only in threaded
mode (`use_delayed_output`). -/
def PercState.start (s : PercState) : PercState :=
  if s.useThread then
    (if s.enabled then s else { s with enabled := true, liveTasks := s.liveTasks + 1 })
  else s

/-- `Percentage.stop`: in threaded mode first `show` one frame manually;
then write a newline when `keep_output`; then in threaded mode stop the
wrapped indicator (which writes the erase sequence only when it was
enabled), otherwise write the erase sequence directly. -/
def PercState.stop (s : PercState) : PercState :=
  let s1 := if s.useThread then s.show' else s
  let s2 := if s.keepOutput then { s1 with out := s1.out ++ [OutEvent.write "\n"] } else s1
  if s.useThread then
    (if s2.enabled then
      { s2 with enabled := false, liveTasks := s2.liveTasks - 1,
                out := s2.out ++ [OutEvent.write "\x1b[K"] }
     else s2)
  else { s2 with out := s2.out ++ [OutEvent.write "\x1b[K"] }

/-- `Percentage.set_progress`: store the new value in the shared cell and,
when the wrapped indicator is not enabled, `show` one frame manually. -/
def PercState.setProgress (s : PercState) (v : ℚ) : PercState :=
  let s1 := { s with progress := v }
  if s1.enabled then s1 else s1.show'

/-- `Percentage.__init__`: queries the terminal width, applies the width
guard (threshold `len message + 12` in bar mode, `len message + 8`
otherwise), then builds the wrapped `ProgressIndicator`, whose constructor
asserts `delay > 0`. -/
def percInit (term : Except PyError ℕ) (delay : ℚ) (message : String)
    (percentage : ℚ) (use_bar use_delayed_output keep_output : Bool) :
    Except PyError PercState :=
  match term with
  | .error e => .error e
  | .ok width =>
    let tooWide := if use_bar then width < message.length + 12
                   else width < message.length + 8
    let pre := if tooWide then [OutEvent.write (message ++ "\n")] else []
    let msg := if tooWide then "" else message
    if 0 < delay then
      .ok { useThread := use_delayed_output, keepOutput := keep_output,
            useBar := use_bar, message := msg, width := (width : ℤ),
            progress := percentage, enabled := false, liveTasks := 0, out := pre }
    else .error .assertionError

/-- The fixed per-country subdirectory list of `cleanData.clean_data`. -/
def countryDirs : List String :=
  ["Germany/", "Spain/", "France/", "Italy/", "US/", "SouthKorea/", "China/"]

/-- Python `item.endswith suffix`. -/
def pyEndsWith (s suffix : String) : Bool := List.isSuffixOf suffix.data s.data

/-- Python `needle in hay` substring containment. -/
def containsSub (hay needle : String) : Bool :=
  (List.range (hay.data.length + 1)).any fun i => List.isPrefixOf needle.data (hay.data.drop i)

/-- Delete from directory `dir` every listed file satisfying `p`; a
missing directory (`none`) is silently skipped, as the `FileNotFoundError`
handler does. Returns the deleted `(directory, file)` pairs. -/
def deleteWhere (fs : String → Option (List String)) (dir : String)
    (p : String → Bool) : List (String × String) :=
  match fs dir with
  | none => []
  | some files => (files.filter p).map fun f => (dir, f)

/-- `cleanData.clean_data` over an abstract listing `fs` (the key `""` is
the output root itself): returns the list of deleted files in deletion
order. Directory removal is not modelled. -/
def clean_data (all_data rki john_hopkins population hdf5 : Bool)
    (fs : String → Option (List String)) : List (String × String) :=
  let ending := if hdf5 then "h5" else "json"
  if all_data then
    (countryDirs.map fun d =>
      deleteWhere fs d fun f => pyEndsWith f ".json" || pyEndsWith f ".h5").flatten
    ++ deleteWhere fs "" (fun f => pyEndsWith f ".json" || pyEndsWith f ".h5")
  else if rki || john_hopkins || population then
    (if rki then
      deleteWhere fs "Germany/" (fun f =>
        pyEndsWith f ending && (containsSub f "_rki" || containsSub f "RKI"))
     else [])
    ++ (if population then
      deleteWhere fs "Germany/" (fun f =>
        pyEndsWith f ending &&
          (containsSub f "Popul" || containsSub f "FullDataB" || containsSub f "FullDataL"))
     else [])
    ++ (if john_hopkins then
      (countryDirs.map fun d =>
        deleteWhere fs d fun f => pyEndsWith f ending && containsSub f "_jh").flatten
      ++ deleteWhere fs "" (fun f =>
        pyEndsWith f ending && (containsSub f "_jh" || containsSub f "JohnHopkins"))
     else [])
  else []

/-- Indicator states reachable from a freshly constructed indicator by the
public operations. -/
inductive Reachable : BaseInd → Prop where
  | init : ∀ frames delay pre i, indInit frames delay pre = .ok i → Reachable i
  | step_start : ∀ i, Reachable i → Reachable i.start
  | step_stop : ∀ i, Reachable i → Reachable i.stop
  | step_show : ∀ i, Reachable i → Reachable i.show'

/-- Whether an embedded constructor call succeeded. -/
def exceptOk {α : Type} : Except PyError α → Bool
  | .ok _ => true
  | .error _ => false

theorem reachable_liveTasks (i : BaseInd) (h : Reachable i) :
    i.liveTasks = if i.enabled then 1 else 0 := by
  induction h with
  | init frames delay pre j hj =>
    unfold indInit at hj
    split at hj
    · injection hj with hj; subst hj; rfl
    · exact absurd hj (by simp)
  | step_start j hj ih =>
    unfold BaseInd.start
    split <;> simp_all
  | step_stop j hj ih =>
    unfold BaseInd.stop
    split <;> simp_all
  | step_show j hj ih =>
    simpa [BaseInd.show'] using ih

/-- Claim C10: `show` always writes exactly one event consisting of a
single space, the next frame and a single carriage return, followed by a
flush; the visible part of the written text is one character wider than
the frame. -/
theorem show_writes_one_frame (i : BaseInd) :
    (BaseInd.show' i).out =
      i.out ++ [OutEvent.write (" " ++ i.frames i.pos ++ "\r"), OutEvent.flush] ∧
    (" " ++ i.frames i.pos).length = (i.frames i.pos).length + 1 ∧
    (" " ++ i.frames i.pos ++ "\r").length = (i.frames i.pos).length + 2 := by
  have h1 : (" " : String).length = 1 := rfl
  have h2 : ("\r" : String).length = 1 := rfl
  refine ⟨rfl, ?_, ?_⟩ <;> simp [String.length_append, h1, h2] <;> omega

/-- Claim C4: `start` on a running indicator and `stop` on a stopped
indicator change nothing (in particular no second background task is
spawned and no output is produced), and every reachable indicator state
has at most one live background task. -/
theorem start_stop_idempotent (i j : BaseInd)
    (hi : i.enabled = true) (hj : j.enabled = false)
    (hri : Reachable i) (hrj : Reachable j) :
    i.start = i ∧ j.stop = j ∧ i.liveTasks ≤ 1 ∧ j.liveTasks ≤ 1 := by
  refine ⟨?_, ?_, ?_, ?_⟩
  · unfold BaseInd.start; simp [hi]
  · unfold BaseInd.stop; simp [hj]
  · have h := reachable_liveTasks i hri; split at h <;> omega
  · have h := reachable_liveTasks j hrj; split at h <;> omega

def witnessFrames : ℕ → String := fun _ => "x"

def baseW : BaseInd :=
  { frames := witnessFrames, pos := 0, delay := 1, enabled := false,
    liveTasks := 0, out := [] }

theorem baseW_reachable : Reachable baseW :=
  Reachable.init witnessFrames 1 [] baseW rfl

/-- Witness for C4 at a freshly constructed and then started indicator. -/
theorem start_stop_idempotent_witness :
    (baseW.start.enabled = true ∧ baseW.enabled = false) ∧
    (baseW.start.start = baseW.start ∧ baseW.stop = baseW ∧
      baseW.start.liveTasks ≤ 1 ∧ baseW.liveTasks ≤ 1) :=
  ⟨⟨rfl, rfl⟩,
    start_stop_idempotent baseW.start baseW rfl rfl
      (Reachable.step_start baseW baseW_reachable) baseW_reachable⟩

/-- Claim C5: for `num_dots > 0` and equally long `dot` and `blank`, the
Dots generator repeats a cycle of `num_dots` frames whose `n`-th frame
(1-indexed) is the message, `n` copies of `dot` and `num_dots - n` copies
of `blank`. -/
theorem dots_frame_cycle (message dot blank : String) (num_dots : ℕ)
    (hpos : 0 < num_dots) (hlen : dot.length = blank.length)
    (c n : ℕ) (h1 : 1 ≤ n) (h2 : n ≤ num_dots) :
    dotsSeq message dot blank num_dots (c * num_dots + (n - 1)) =
      message ++ pyRep dot n ++ pyRep blank (num_dots - n) := by
  unfold dotsSeq dotsFrame
  have hmod : (c * num_dots + (n - 1)) % num_dots = n - 1 := by
    rw [Nat.mul_comm, Nat.mul_add_mod]
    exact Nat.mod_eq_of_lt (by omega)
  rw [hmod]
  have h3 : n - 1 + 1 = n := by omega
  rw [h3]

/-- Witness for C5: the second frame of the second cycle of a three-dot
indicator. -/
theorem dots_frame_cycle_witness :
    (0 < 3 ∧ (".").length = (" ").length ∧ 1 ≤ 2 ∧ 2 ≤ 3) ∧
    dotsSeq "go" "." " " 3 (1 * 3 + (2 - 1)) = "go" ++ pyRep "." 2 ++ pyRep " " 1 :=
  ⟨by decide,
    dots_frame_cycle "go" "." " " 3 (by decide) (by decide) 1 2 (by decide) (by decide)⟩

theorem stop_out_spec (s : PercState) :
    (PercState.stop s).out =
      s.out
      ++ (if s.useThread then
            [OutEvent.write (" " ++ s.frame ++ "\r"), OutEvent.flush] else [])
      ++ (if s.keepOutput then [OutEvent.write "\n"] else [])
      ++ (if s.useThread then
            (if s.enabled then [OutEvent.write "\x1b[K"] else [])
          else [OutEvent.write "\x1b[K"]) ∧
    (PercState.stop s).enabled = (if s.useThread then false else s.enabled) ∧
    (PercState.stop s).progress = s.progress ∧
    (PercState.stop s).useThread = s.useThread ∧
    (PercState.stop s).keepOutput = s.keepOutput := by
  obtain ⟨ut, ko, ub, m, w, p, en, lt, o⟩ := s
  unfold PercState.stop PercState.show'
  cases ut <;> cases ko <;> cases en <;>
    simp [PercState.frame, PercState.msgPart, List.append_assoc]

/-- A non-threaded Percentage indicator in its freshly constructed state
(`use_delayed_output = false`, `keep_output = false`). -/
def exNoThread : PercState :=
  { useThread := false, keepOutput := false, useBar := false, message := "",
    width := 80, progress := 0, enabled := false, liveTasks := 0, out := [] }

/-- Counterexample to claim C1 as stated: on a non-threaded Percentage
indicator, `stop` writes only the erase sequence and never renders a
final frame. -/
theorem stop_no_final_frame_counterexample :
    (PercState.stop exNoThread).out = [OutEvent.write "\x1b[K"] ∧
    OutEvent.write (" " ++ exNoThread.frame ++ "\r") ∉ (PercState.stop exNoThread).out := by
  decide

/-- Claim C1 (amended): `stop` renders one final frame synchronously if
and only if `use_delayed_output` is true, and when it does, the frame
write comes before the newline/clear actions and before the background
task is stopped; in non-threaded mode no frame is rendered by `stop`. -/
theorem stop_final_frame_iff_threaded (s : PercState) :
    (PercState.stop s).out =
      s.out
      ++ (if s.useThread then
            [OutEvent.write (" " ++ s.frame ++ "\r"), OutEvent.flush] else [])
      ++ (if s.keepOutput then [OutEvent.write "\n"] else [])
      ++ (if s.useThread then
            (if s.enabled then [OutEvent.write "\x1b[K"] else [])
          else [OutEvent.write "\x1b[K"]) ∧
    (PercState.stop s).enabled = (if s.useThread then false else s.enabled) :=
  ⟨(stop_out_spec s).1, (stop_out_spec s).2.1⟩

/-- A threaded Percentage indicator with `keep_output = false` on which
`start` was never called. -/
def exThreadedIdle : PercState :=
  { useThread := true, keepOutput := false, useBar := false, message := "",
    width := 80, progress := 0, enabled := false, liveTasks := 0, out := [] }

/-- Counterexample to claim C2 as stated: with `use_delayed_output = true`,
`keep_output = false` and `start` never called, `stop` writes the final
frame but no erase-line sequence at all, so the line is not cleared. -/
theorem stop_missing_erase_counterexample :
    (PercState.stop exThreadedIdle).out =
      [OutEvent.write "   0.00%\r", OutEvent.flush] ∧
    OutEvent.write "\x1b[K" ∉ (PercState.stop exThreadedIdle).out := by
  decide

/-- Claim C2 (amended): provided the background indicator is enabled
whenever `use_delayed_output` is true, the output of `stop` is determined
by `keep_output`: the optional final frame, then a newline exactly when
`keep_output` is true, then the erase-line sequence (which, after a
newline, clears the fresh empty line, leaving the frame and newline on
screen). When `use_delayed_output` is true but the indicator is not
enabled, no erase sequence is written. -/
theorem stop_output_per_keep_output (s : PercState)
    (h : s.useThread = true → s.enabled = true) :
    (PercState.stop s).out =
      s.out
      ++ (if s.useThread then
            [OutEvent.write (" " ++ s.frame ++ "\r"), OutEvent.flush] else [])
      ++ (if s.keepOutput then [OutEvent.write "\n"] else [])
      ++ [OutEvent.write "\x1b[K"] := by
  rw [(stop_out_spec s).1]
  cases hut : s.useThread with
  | false => simp [hut]
  | true => simp [hut, h hut]

/-- A running threaded Percentage indicator. -/
def exThreadedRun : PercState :=
  { useThread := true, keepOutput := true, useBar := false, message := "",
    width := 80, progress := mkRat 1 2, enabled := true, liveTasks := 1, out := [] }

/-- Witness for C2 on a running threaded indicator. -/
theorem stop_output_per_keep_output_witness :
    exThreadedRun.enabled = true ∧
    (PercState.stop exThreadedRun).out =
      exThreadedRun.out
      ++ (if exThreadedRun.useThread then
            [OutEvent.write (" " ++ exThreadedRun.frame ++ "\r"), OutEvent.flush] else [])
      ++ (if exThreadedRun.keepOutput then [OutEvent.write "\n"] else [])
      ++ [OutEvent.write "\x1b[K"] :=
  ⟨rfl, stop_output_per_keep_output exThreadedRun (fun _ => rfl)⟩

/-- Claim C6: `set_progress v` stores `v` in the shared progress cell and
renders exactly one frame synchronously (reflecting the new value) if and
only if the wrapped indicator is not enabled; concretely, in non-threaded
mode `set_progress` of one half renders the fifty-percent frame before the
clearing that a later `stop` performs. -/
theorem set_progress_spec (s : PercState) (v : ℚ) :
    (PercState.setProgress s v).progress = v ∧
    (PercState.setProgress s v).out =
      s.out ++ (if s.enabled then []
        else [OutEvent.write (" " ++ PercState.frame { s with progress := v } ++ "\r"),
              OutEvent.flush]) ∧
    (PercState.setProgress s v).enabled = s.enabled ∧
    (PercState.stop (PercState.setProgress exNoThread (mkRat 1 2))).out =
      [OutEvent.write "  50.00%\r", OutEvent.flush, OutEvent.write "\x1b[K"] := by
  refine ⟨?_, ?_, ?_, by decide⟩ <;>
    · unfold PercState.setProgress PercState.show'
      cases hen : s.enabled <;> simp [hen]

theorem pyTrunc_eq_floor (q : ℚ) (h : 0 ≤ q) : pyTrunc q = ⌊q⌋ := by
  have hnum : 0 ≤ q.num := Rat.num_nonneg.mpr h
  rcases eq_or_lt_of_le hnum with h0 | hpos
  · have hq0 : q = 0 := Rat.num_eq_zero.mp h0.symm
    subst hq0
    simp [pyTrunc]
  · have hsign : q.num.sign = 1 := Int.sign_eq_one_of_pos hpos
    unfold pyTrunc
    rw [hsign, one_mul]
    have hqeq : ((q.num.natAbs : ℚ)) / ((q.den : ℚ)) = q := by
      conv_rhs => rw [← Rat.num_div_den q]
      congr 1
      rw [Int.cast_natAbs]
      exact_mod_cast congrArg (fun z => ((z : ℤ) : ℚ)) (abs_of_nonneg hnum)
    calc ((q.num.natAbs / q.den : ℕ) : ℤ)
        = (q.num.natAbs : ℤ) / (q.den : ℤ) := by exact_mod_cast rfl
      _ = ⌊((q.num.natAbs : ℚ) / ((q.den : ℚ)))⌋ :=
          (Rat.floor_natCast_div_natCast _ _).symm
      _ = ⌊q⌋ := by rw [hqeq]

/-- Claim C3: after the width guard, the bar renderer computes
`bar_width = w - len m - 11`, fills `floor (bar_width * p)` hash marks and
pads with `bar_width - filled` spaces inside brackets; in particular at
width 80, empty message and progress one half the bar is 34 hashes and
35 spaces. -/
theorem bar_render_spec (w : ℤ) (m : String) (p : ℚ)
    (h0 : 0 ≤ p) (h1 : p ≤ 1) (hw : (m.length : ℤ) + 12 ≤ w) :
    BarRef.getItem { p := p, m := m, w := w - m.length - 11 } =
      m ++ "[" ++ pyRepZ "#" ⌊((w - m.length - 11 : ℤ) : ℚ) * p⌋
        ++ pyRepZ " " ((w - m.length - 11) - ⌊((w - m.length - 11 : ℤ) : ℚ) * p⌋)
        ++ "] " ∧
    0 ≤ ⌊((w - m.length - 11 : ℤ) : ℚ) * p⌋ ∧
    ⌊((w - m.length - 11 : ℤ) : ℚ) * p⌋ ≤ w - m.length - 11 ∧
    BarRef.getItem { p := mkRat 1 2, m := "", w := 69 } =
      "[" ++ pyRep "#" 34 ++ pyRep " " 35 ++ "] " := by
  have hbw0 : (0 : ℤ) ≤ w - m.length - 11 := by omega
  have hbwq : (0 : ℚ) ≤ ((w - m.length - 11 : ℤ) : ℚ) := by exact_mod_cast hbw0
  have hq0 : (0 : ℚ) ≤ ((w - m.length - 11 : ℤ) : ℚ) * p := mul_nonneg hbwq h0
  refine ⟨?_, Int.floor_nonneg.mpr hq0, ?_, by decide⟩
  · unfold BarRef.getItem
    dsimp only
    rw [qmul_eq_mul, pyTrunc_eq_floor _ hq0]
  · have hle : ((w - m.length - 11 : ℤ) : ℚ) * p ≤ ((w - m.length - 11 : ℤ) : ℚ) := by
      calc ((w - m.length - 11 : ℤ) : ℚ) * p
          ≤ ((w - m.length - 11 : ℤ) : ℚ) * 1 := mul_le_mul_of_nonneg_left h1 hbwq
        _ = ((w - m.length - 11 : ℤ) : ℚ) := mul_one _
    calc ⌊((w - m.length - 11 : ℤ) : ℚ) * p⌋
        ≤ ⌊((w - m.length - 11 : ℤ) : ℚ)⌋ := Int.floor_le_floor hle
      _ = w - m.length - 11 := Int.floor_intCast _

/-- Witness for C3 at width 80, empty message and progress one half. -/
theorem bar_render_spec_witness :
    ((0 : ℚ) ≤ mkRat 1 2 ∧ mkRat 1 2 ≤ (1 : ℚ) ∧ (("".length : ℤ) + 12 ≤ 80)) ∧
    BarRef.getItem { p := mkRat 1 2, m := "", w := 69 } =
      "[" ++ pyRep "#" 34 ++ pyRep " " 35 ++ "] " :=
  ⟨⟨by decide, by decide, by decide⟩,
   (bar_render_spec 80 "" (mkRat 1 2) (by decide) (by decide) (by decide)).2.2.2⟩

/-- Counterexample to claim C7 as stated: `Dots` with equal-length `dot`
and `blank` and positive `num_dots` still fails when the explicitly
passed delay is not positive, through the wrapped constructor's
assertion. -/
theorem dots_fails_on_nonpositive_delay :
    dotsInit (.ok 80) 0 "" 3 "." " " = .error PyError.assertionError ∧
    (".").length = (" ").length ∧ (0 : ℤ) < 3 :=
  ⟨rfl, rfl, by decide⟩

theorem exceptOk_ok {α : Type} (a : α) : exceptOk (Except.ok a) = true := rfl

theorem exceptOk_error {α : Type} (e : PyError) :
    exceptOk (Except.error e : Except PyError α) = false := rfl

/-- Claim C7 (amended): construction fails fast exactly on precondition
violations: the base constructor succeeds iff `delay > 0`, and `Dots`
(with the terminal width available) succeeds iff `len dot = len blank`,
`num_dots > 0` and additionally `delay > 0` (checked by the wrapped base
constructor). -/
theorem construction_assert_iff (f : ℕ → String) (d : ℚ) (pre : List OutEvent)
    (width : ℕ) (d2 : ℚ) (msg : String) (nd : ℤ) (dot blank : String) :
    (exceptOk (indInit f d pre) = true ↔ 0 < d) ∧
    (exceptOk (dotsInit (.ok width) d2 msg nd dot blank) = true ↔
      (dot.length = blank.length ∧ 0 < nd ∧ 0 < d2)) := by
  constructor
  · unfold indInit
    split_ifs with hd <;> simp [exceptOk, hd]
  · unfold dotsInit indInit
    split_ifs <;> simp_all [apply_ite exceptOk, exceptOk_ok, exceptOk_error]

/-- Counterexample to claim C8 as stated: when the terminal width query
raises, all three preset constructors propagate the error instead of
falling back to a default width. -/
theorem construction_oserror_counterexample :
    spinnerInit (.error .osError) (mkRat 1 10) "" = .error PyError.osError ∧
    dotsInit (.error .osError) 1 "" 3 "." " " = .error PyError.osError ∧
    percInit (.error .osError) 1 "" 0 false true true = .error PyError.osError :=
  ⟨rfl, rfl, rfl⟩

/-- Claim C8 (amended): when the terminal width is unavailable, preset
construction does not degrade to a default width; it propagates the
error to the caller (for `Dots`, after its own assertions pass). -/
theorem construction_propagates_oserror (e : PyError) (delay : ℚ) (msg : String)
    (percentage : ℚ) (ub udo ko : Bool) (nd : ℤ) (dot blank : String)
    (h1 : dot.length = blank.length) (h2 : 0 < nd) :
    spinnerInit (.error e) delay msg = .error e ∧
    dotsInit (.error e) delay msg nd dot blank = .error e ∧
    percInit (.error e) delay msg percentage ub udo ko = .error e := by
  refine ⟨rfl, ?_, rfl⟩
  unfold dotsInit
  rw [if_pos h1, if_pos h2]

/-- Witness for C8 with a dot/blank pair of equal length. -/
theorem construction_propagates_oserror_witness :
    ((".").length = (" ").length ∧ (0 : ℤ) < 3) ∧
    (spinnerInit (.error PyError.osError) 1 "m" = .error PyError.osError ∧
     dotsInit (.error PyError.osError) 1 "m" 3 "." " " = .error PyError.osError ∧
     percInit (.error PyError.osError) 1 "m" 0 true true true = .error PyError.osError) :=
  ⟨⟨rfl, by decide⟩,
   construction_propagates_oserror PyError.osError 1 "m" 0 true true true 3 "." " "
     rfl (by decide)⟩

def fsGermanyJson : String → Option (List String) :=
  fun d => if d = "Germany/" then some ["a_rki.json"] else none

/-- Counterexample to claim C9 as stated: with `all_data` set and the
`hdf5` flag true, a `.json` file is nevertheless deleted. -/
theorem clean_data_all_branch_counterexample :
    clean_data true false false false true fsGermanyJson =
      [("Germany/", "a_rki.json")] ∧
    pyEndsWith "a_rki.json" "h5" = false := by decide

theorem deleteWhere_pred {fs : String → Option (List String)} {dir : String}
    {p : String → Bool} {d f : String}
    (h : (d, f) ∈ deleteWhere fs dir p) : p f = true := by
  unfold deleteWhere at h
  cases hfs : fs dir with
  | none => rw [hfs] at h; simp at h
  | some files =>
    rw [hfs] at h
    simp only [List.mem_map, List.mem_filter] at h
    obtain ⟨x, ⟨hx, hpx⟩, hxe⟩ := h
    cases hxe
    exact hpx

/-- Claim C9 (amended): in the category-specific branches (`rki`,
`john_hopkins`, `population`) every deleted file has the selected
extension, `h5` when the flag is set and `json` otherwise; the `all_data`
branch (excluded here) deletes files of both extensions regardless of
the flag. -/
theorem clean_data_ending_filter (rki jh pop hdf5 : Bool)
    (fs : String → Option (List String)) (d f : String)
    (h : (d, f) ∈ clean_data false rki jh pop hdf5 fs) :
    pyEndsWith f (if hdf5 then "h5" else "json") = true := by
  unfold clean_data at h
  simp only [Bool.false_eq_true, if_false] at h
  split at h
  · rcases List.mem_append.mp h with h | h
    · rcases List.mem_append.mp h with h | h
      · split at h
        · have hp := deleteWhere_pred h
          rw [Bool.and_eq_true] at hp
          exact hp.1
        · simp at h
      · split at h
        · have hp := deleteWhere_pred h
          rw [Bool.and_eq_true] at hp
          exact hp.1
        · simp at h
    · split at h
      · rcases List.mem_append.mp h with h | h
        · rw [List.mem_flatten] at h
          obtain ⟨l, hl, hfl⟩ := h
          rw [List.mem_map] at hl
          obtain ⟨dir, hdir, rfl⟩ := hl
          have hp := deleteWhere_pred hfl
          rw [Bool.and_eq_true] at hp
          exact hp.1
        · have hp := deleteWhere_pred h
          rw [Bool.and_eq_true] at hp
          exact hp.1
      · simp at h
  · simp at h

def fsGermanyRki : String → Option (List String) :=
  fun d => if d = "Germany/" then some ["x_rki.json"] else none

/-- Witness for C9 on the `rki` branch with the `json` extension. -/
theorem clean_data_ending_filter_witness :
    (("Germany/", "x_rki.json") ∈
      clean_data false true false false false fsGermanyRki) ∧
    pyEndsWith "x_rki.json" (if false then "h5" else "json") = true :=
  ⟨by decide,
   clean_data_ending_filter true false false false fsGermanyRki
     "Germany/" "x_rki.json" (by decide)⟩
